import Mathlib

/-!
Verification development for the ShadowMap shadow-engine prototype
(`engine_core.py`, `service_cli.py`, `engine_server.py`).

The Python analytics pipeline is shallowly embedded in Lean:

* JSON payloads (as produced by `json.load`) are the inductive type `JValue`;
  Python `None` and JSON `null` are both `JValue.null`, matching Python where
  they are the same object after parsing.
* Planar geometries handled by shapely are modelled as finite unions of closed
  axis-aligned rational rectangles (`Geometry := List Rect`); `unary_union` is
  concatenation (the represented point set is the union), `intersection` with a
  box distributes over members, point containment is interior (strict)
  membership as in `shapely .contains`, and `.area` is the true area of the
  represented union computed by coordinate compression.
* The coordinate reprojection `to_crs(3857)` used for areas is an external
  collaborator (pyproj); it maps polygon vertices through a per-axis transform,
  so it is modelled as a pair of coordinate maps (`Proj`).  Theorems quantify
  over the transform; concrete witnesses use the identity transform.
* Machine floats are modelled as `ℚ`.
-/

/-- JSON values as produced by `json.load`.  `null` also stands for Python
`None` (after `json.load` they are the same object). -/
inductive JValue where
  | null : JValue
  | bool (b : Bool) : JValue
  | num (q : ℚ) : JValue
  | str (s : String) : JValue
  | arr (items : List JValue) : JValue
  | obj (fields : List (String × JValue)) : JValue
deriving Repr

/-- Python truthiness (`if value:`) of a JSON value: `None`, `False`, `0`,
`""`, `[]` and `{}` are falsy, everything else truthy. -/
def JValue.truthy : JValue → Bool
  | .null => false
  | .bool b => b
  | .num q => q ≠ 0
  | .str s => s ≠ ""
  | .arr items => ¬ items.isEmpty
  | .obj fields => ¬ fields.isEmpty

/-- Model of Python `d.get(k)` on a JSON object: the stored value, or `None`
(i.e. `null`) when the key is missing or the receiver is not a dict. -/
def JValue.get : JValue → String → JValue
  | .obj fields, k => (List.lookup k fields).getD .null
  | _, _ => .null

/-- Model of Python `k in d`: key presence (not truthiness of the value). -/
def JValue.hasKey : JValue → String → Bool
  | .obj fields, k => (List.lookup k fields).isSome
  | _, _ => false

/-- Is the value a Python dict? (`isinstance(value, dict)`). -/
def JValue.isDict : JValue → Bool
  | .obj _ => true
  | _ => false

/-- Model of Python `d.get(k, [])` followed by list iteration: the stored
list, or `[]` when the key is missing. -/
def JValue.getArr (v : JValue) (k : String) : List JValue :=
  match v.get k with
  | .arr items => items
  | _ => []

/-- Closed axis-aligned rectangle `[xmin, xmax] × [ymin, ymax]`; empty when
inverted on either axis. -/
structure Rect where
  xmin : ℚ
  ymin : ℚ
  xmax : ℚ
  ymax : ℚ
deriving Repr, DecidableEq

/-- Empty as a closed point set (degenerate segments/points are nonempty,
matching shapely's `is_empty` on lower-dimensional intersections). -/
def Rect.isEmptyR (r : Rect) : Bool :=
  decide (r.xmax < r.xmin) || decide (r.ymax < r.ymin)

/-- Unsigned rectangle area (0 for empty or degenerate rectangles). -/
def Rect.rArea (r : Rect) : ℚ :=
  max 0 (r.xmax - r.xmin) * max 0 (r.ymax - r.ymin)

/-- Intersection of two closed rectangles as a closed rectangle. -/
def Rect.inter (a b : Rect) : Rect :=
  ⟨max a.xmin b.xmin, max a.ymin b.ymin, min a.xmax b.xmax, min a.ymax b.ymax⟩

/-- A shapely geometry, modelled as the union of finitely many closed
axis-aligned rectangles. -/
def Geometry := List Rect
deriving instance Repr, DecidableEq for Geometry

/-- Model of `is_empty` of a geometry: every member rectangle is empty. -/
def Geometry.isEmptyG (g : Geometry) : Bool := g.all Rect.isEmptyR

/-- Model of `unary_union` over a list of geometries: the represented point set is the
union of the members, so the model concatenates the rectangle lists. -/
def unaryUnion (gs : List Geometry) : Geometry := gs.flatten

/-- Model of `union.intersection(box)`: intersection with a single rectangle
distributes over the members of the union. -/
def Geometry.clipTo (g : Geometry) (b : Rect) : Geometry := g.map (Rect.inter b)

/-- shapely `geom.contains(Point(x, y))`: the point lies in the interior.  In
the rectangle model a point is interior when it is strictly inside some member
rectangle (this under-approximates interior points lying on a boundary shared
by two members; no claim depends on that corner). -/
def Geometry.containsPt (g : Geometry) (p : ℚ × ℚ) : Bool :=
  g.any fun r =>
    decide (r.xmin < p.1) && decide (p.1 < r.xmax) &&
    decide (r.ymin < p.2) && decide (p.2 < r.ymax)

/-- shapely `a.intersects(b)` (boundary touching counts): some pair of member
rectangles has a nonempty closed intersection. -/
def Geometry.intersectsG (a b : Geometry) : Bool :=
  a.any fun ra => b.any fun rb => ¬ (ra.inter rb).isEmptyR

/-- Insert a rational into a sorted list, keeping it sorted. -/
def insertSorted (x : ℚ) : List ℚ → List ℚ
  | [] => [x]
  | y :: ys => if x ≤ y then x :: y :: ys else y :: insertSorted x ys

/-- Insertion sort on rationals (structural, so it evaluates in the kernel). -/
def sortQ (l : List ℚ) : List ℚ := l.foldr insertSorted []

/-- Adjacent-duplicate removal on a sorted list (coordinate compression). -/
def dedupAdj : List ℚ → List ℚ
  | [] => []
  | [a] => [a]
  | a :: b :: rest => if a = b then dedupAdj (b :: rest) else a :: dedupAdj (b :: rest)

/-- Consecutive pairs of a list: `[a, b, c] ↦ [(a, b), (b, c)]`. -/
def consecPairs : List ℚ → List (ℚ × ℚ)
  | a :: b :: rest => (a, b) :: consecPairs (b :: rest)
  | _ => []

/-- Does some rectangle of `g` cover the whole cell `[x1,x2] × [y1,y2]`? -/
def cellCovered (g : List Rect) (x1 x2 y1 y2 : ℚ) : Bool :=
  g.any fun r =>
    decide (r.xmin ≤ x1) && decide (x2 ≤ r.xmax) &&
    decide (r.ymin ≤ y1) && decide (y2 ≤ r.ymax)

/-- Area of the union of rectangles represented by a geometry, by coordinate
compression: sum the areas of the grid cells (induced by all rectangle
coordinates) that are covered by some rectangle.  This models shapely's
(unsigned, overlap-free) `.area` of a union. -/
def Geometry.gArea (g : Geometry) : ℚ :=
  let rs := g.filter fun r => decide (r.xmin < r.xmax) && decide (r.ymin < r.ymax)
  let xs := consecPairs (dedupAdj (sortQ (rs.flatMap fun r => [r.xmin, r.xmax])))
  let ys := consecPairs (dedupAdj (sortQ (rs.flatMap fun r => [r.ymin, r.ymax])))
  (xs.map fun x =>
    (ys.map fun y =>
      if cellCovered rs x.1 x.2 y.1 y.2 then max 0 (x.2 - x.1) * max 0 (y.2 - y.1)
      else 0).sum).sum

/-- The vertex transform applied by `GeoSeries.to_crs(3857)` (external
collaborator pyproj): a per-axis coordinate map.  The real Web-Mercator
forward transform is strictly monotone on each axis; theorems quantify over
the transform and witnesses instantiate it with the identity. -/
structure Proj where
  fx : ℚ → ℚ
  fy : ℚ → ℚ

/-- Transform a rectangle by mapping its corner coordinates (what `to_crs`
does to the vertices of an axis-aligned polygon). -/
def Proj.rect (p : Proj) (r : Rect) : Rect :=
  ⟨p.fx r.xmin, p.fy r.ymin, p.fx r.xmax, p.fy r.ymax⟩

/-- Transform every member of a geometry. -/
def Proj.geom (p : Proj) (g : Geometry) : Geometry := g.map p.rect

/-- The identity transform (used for concrete witnesses). -/
def idProj : Proj := ⟨id, id⟩

/-- A bounding box in geographic degrees, `bounds` dict of the source. -/
structure Bounds where
  west : ℚ
  south : ℚ
  east : ℚ
  north : ℚ
deriving Repr, DecidableEq

/-- shapely `box(west, south, east, north)`: the represented point set is the
rectangle spanned by the two corners regardless of their order (`box` emits
the four corner vertices; orientation does not affect the point set or the
unsigned area). -/
def shapelyBox (west south east north : ℚ) : Rect :=
  ⟨min west east, min south north, max west east, max south north⟩

/-- Model of `bbox_geom` local of `calculate_shadow_coverage`. -/
def bboxGeom (bounds : Bounds) : Rect :=
  shapelyBox bounds.west bounds.south bounds.east bounds.north

/-- Model of `bbox_area` local of `calculate_shadow_coverage`: area of the bbox
polygon after reprojection. -/
def bboxArea (proj : Proj) (bounds : Bounds) : ℚ :=
  Geometry.gArea (proj.geom [bboxGeom bounds])

/-- Return value of `calculate_shadow_coverage`. -/
structure CoverageResult where
  bbox_area_sqm : ℚ
  shadow_area_sqm : ℚ
  coverage_percent : ℚ
deriving Repr, DecidableEq

/-- Model of `engine_core.calculate_shadow_coverage`.  `shadows` is the geometry
column of the shadow GeoDataFrame (one geometry per row); `shadows.empty`
is row-emptiness of the frame. -/
def calculate_shadow_coverage (proj : Proj) (bounds : Bounds)
    (shadows : List Geometry) : CoverageResult :=
  let bbox_geom := bboxGeom bounds
  let bbox_area := bboxArea proj bounds
  if bbox_area ≤ 0 ∨ shadows.isEmpty then
    ⟨max bbox_area 0, 0, 0⟩
  else
    let union := unaryUnion shadows
    if union.isEmptyG then ⟨bbox_area, 0, 0⟩
    else
      let clipped := union.clipTo bbox_geom
      if clipped.isEmptyG then ⟨bbox_area, 0, 0⟩
      else
        let shadow_area := Geometry.gArea (proj.geom clipped)
        let coverage :=
          if bbox_area = 0 then 0
          else max 0 (min 100 (shadow_area / bbox_area * 100))
        ⟨bbox_area, shadow_area, coverage⟩

/-- Model of `service_cli.sample_points`: clamp the grid size into `[3, 25]`, then lay
interior grid points; empty when either bbox span is non-positive.  The source
iterates `for i in range(1, grid + 1)` (outer: longitude index). -/
def sample_points (bounds : Bounds) (grid : ℤ) : List (ℚ × ℚ) :=
  let grid := max 3 (min grid 25)
  let lon_span := bounds.east - bounds.west
  let lat_span := bounds.north - bounds.south
  if lon_span ≤ 0 ∨ lat_span ≤ 0 then []
  else
    let step_lon := lon_span / ((grid : ℚ) + 1)
    let step_lat := lat_span / ((grid : ℚ) + 1)
    (List.range grid.toNat).flatMap fun (i : ℕ) =>
      (List.range grid.toNat).map fun (j : ℕ) =>
        (bounds.west + step_lon * ((i : ℚ) + 1), bounds.south + step_lat * ((j : ℚ) + 1))

/-- GeoJSON point geometry of a sample feature. -/
structure PointGeom where
  lon : ℚ
  lat : ℚ
deriving Repr, DecidableEq

/-- A GeoJSON point feature with numeric properties (assoc list models the
Python dict, in insertion order). -/
structure PointFeature where
  geometry : PointGeom
  properties : List (String × ℚ)
deriving Repr, DecidableEq

/-- The per-point feature built in the loop body of `analyse_samples`:
`hours_shadow = 3.0`, `hours_sun = 10.0`, `weight = max(0.1, min(hours / hours_sun, 1.0))`. -/
def sampleFeature (in_shadow : Bool) (p : ℚ × ℚ) : PointFeature :=
  let hours : ℚ := if in_shadow then 3 else 10
  let shadow_percent : ℚ := if in_shadow then 85 else 5
  ⟨⟨p.1, p.2⟩,
   [("hoursOfSun", hours), ("shadowPercent", shadow_percent),
    ("weight", max (1 / 10) (min (hours / 10) 1))]⟩

/-- Model of `in_shadow = union_geom.contains(point) if union_geom else False`, where
`union_geom = unary_union(shadow_gdf.geometry) if not shadow_gdf.empty else
None` and an empty shapely geometry is also falsy. -/
def pointInShadow (shadow_gdf : List Geometry) (p : ℚ × ℚ) : Bool :=
  match (if shadow_gdf.isEmpty then none else some (unaryUnion shadow_gdf)) with
  | none => false
  | some u => if u.isEmptyG then false else u.containsPt p

/-- Model of `metrics` block of `analyse_samples`. -/
structure SampleMetrics where
  sampleCount : ℕ
  avgShadowPercent : ℚ
  avgSunlightHours : ℚ
deriving Repr, DecidableEq

/-- Return value of `analyse_samples`. -/
structure SamplesResult where
  features : List PointFeature
  metrics : SampleMetrics
deriving Repr, DecidableEq

/-- Model of `service_cli.analyse_samples`.  The single Python loop (accumulating the
feature list and the shadow-hit counter) is modelled as a map over the points
plus a filter-count with the same per-point classifier; the union the source
precomputes once per call is referenced through the pure `pointInShadow`, so
hoisting it out of the loop is semantics-preserving. -/
def analyse_samples (shadow_gdf : List Geometry) (bounds : Bounds)
    (grid : ℤ) : SamplesResult :=
  let points := sample_points bounds grid
  if points.isEmpty then ⟨[], ⟨0, 0, 0⟩⟩
  else
    let features := points.map fun p => sampleFeature (pointInShadow shadow_gdf p) p
    let shadow_hits := (points.filter (pointInShadow shadow_gdf)).length
    let n := points.length
    ⟨features,
     ⟨n, ((shadow_hits : ℚ) / (n : ℚ)) * 100,
      (((shadow_hits : ℚ) * 3) + (((n : ℚ) - (shadow_hits : ℚ)) * 10)) / (n : ℚ)⟩⟩

/-- Model of `service_cli.make_heatmap`: the loop appends, for each input feature, a
feature with the same geometry and a single `intensity` property equal to
`properties.get("hoursOfSun", 0)`. -/
def make_heatmap (features : List PointFeature) : List PointFeature :=
  features.foldl
    (fun items feature =>
      items ++
        [⟨feature.geometry,
          [("intensity", (List.lookup "hoursOfSun" feature.properties).getD 0)]⟩])
    []

/-- Numeric value of a list of decimal digits (most significant first). -/
def digitsToNat (ds : List ℕ) : ℕ := ds.foldl (fun a d => a * 10 + d) 0

/-- Numeric value of a decimal digit character (0 for non-digits; callers
guard with `Char.isDigit`). -/
def digitVal (c : Char) : ℕ :=
  if c = '1' then 1 else if c = '2' then 2 else if c = '3' then 3
  else if c = '4' then 4 else if c = '5' then 5 else if c = '6' then 6
  else if c = '7' then 7 else if c = '8' then 8 else if c = '9' then 9 else 0

/-- Split a leading run of decimal digits off a character list. -/
def spanDigits : List Char → List ℕ × List Char
  | [] => ([], [])
  | c :: rest =>
    if c.isDigit then
      let (ds, r) := spanDigits rest
      (digitVal c :: ds, r)
    else ([], c :: rest)

/-- Parse the unsigned mantissa `digits [. digits]` / `. digits`. -/
def parseMantissa (cs : List Char) : Option (ℚ × List Char) :=
  let (ip, r1) := spanDigits cs
  match r1 with
  | '.' :: r2 =>
    let (fp, r3) := spanDigits r2
    if ip.isEmpty ∧ fp.isEmpty then none
    else some (((digitsToNat ip : ℕ) : ℚ) + ((digitsToNat fp : ℕ) : ℚ) / (10 ^ fp.length), r3)
  | _ => if ip.isEmpty then none else some (((digitsToNat ip : ℕ) : ℚ), r1)

/-- Parse the optional exponent suffix after the mantissa; the remaining
input must be consumed entirely. -/
def parseExponent (m : ℚ) (cs : List Char) : Option ℚ :=
  match cs with
  | [] => some m
  | c :: rest =>
    if c = 'e' ∨ c = 'E' then
      let sr : ℤ × List Char :=
        match rest with
        | '+' :: r => (1, r)
        | '-' :: r => (-1, r)
        | _ => (1, rest)
      let (ds, r3) := spanDigits sr.2
      if ds.isEmpty ∨ ¬ r3.isEmpty then none
      else some (m * (10 : ℚ) ^ (sr.1 * (digitsToNat ds : ℤ)))
    else none

/-- Python `float(s)` for a string: strip surrounding whitespace, optional
sign, decimal mantissa, optional exponent.  (The special strings `inf`/`nan`
and underscore separators accepted by Python are not modelled; no claim
involves them.) -/
def pyFloatOfString (s : String) : Option ℚ :=
  let cs := ((s.toList.dropWhile Char.isWhitespace).reverse.dropWhile Char.isWhitespace).reverse
  let sgncs : ℚ × List Char :=
    match cs with
    | '+' :: r => (1, r)
    | '-' :: r => (-1, r)
    | _ => (1, cs)
  match parseMantissa sgncs.2 with
  | none => none
  | some (m, r) => (parseExponent m r).map (fun q => sgncs.1 * q)

/-- Python `float(value)` over a JSON attribute value: numbers pass through,
booleans convert to 0/1, strings go through the decimal parser, and lists or
dicts raise (`none` here; `None` is handled before this call in
`extract_height`). -/
def pyFloat : JValue → Option ℚ
  | .num q => some q
  | .bool b => some (if b then 1 else 0)
  | .str s => pyFloatOfString s
  | _ => none

/-- One iteration of the `extract_height` loop: `properties.get(key)`,
skip `None`, try `float(value)`, skip on failure. -/
def tryHeightKey (properties : List (String × JValue)) (key : String) : Option ℚ :=
  match (List.lookup key properties).getD .null with
  | .null => none
  | v => pyFloat v

/-- Recursion over the fixed candidate-key list of `extract_height`. -/
def extractHeightGo (properties : List (String × JValue)) : List String → ℚ
  | [] => 12
  | key :: keys =>
    match tryHeightKey properties key with
    | none => extractHeightGo properties keys
    | some height => if key = "levels" then height * 3.5 else height

/-- Model of `engine_core.extract_height`: first parseable value among
`height, HEIGHT, height_mean, levels` wins; `levels` is scaled by 3.5;
default 12.0. -/
def extract_height (properties : List (String × JValue)) : ℚ :=
  extractHeightGo properties ["height", "HEIGHT", "height_mean", "levels"]

/-- Python `value == "somestring"` on a JSON value. -/
def JValue.strEq : JValue → String → Bool
  | .str s, t => s == t
  | _, _ => false

/-- Model of `service_cli.normalize_geometry_obj`.  The shapely conversions performed
inside the FeatureCollection branch (`shape`, `unary_union`, `mapping`) belong
to the external geometry library, so they are passed in as parameters:
`shapeFn` models `shapely.geometry.shape` (GeoJSON to geometry) and
`mappingFn` models `shapely.geometry.mapping` (geometry back to GeoJSON).
`ValueError("Unsupported geometry payload")` is the `Except.error` case. -/
def normalize_geometry_obj (shapeFn : JValue → Geometry)
    (mappingFn : Geometry → JValue) (value : JValue) : Except String JValue :=
  match value with
  | .null => .ok .null
  | _ =>
    if value.isDict && (value.get "type").strEq "Feature" then
      .ok (value.get "geometry")
    else if value.isDict && (value.get "type").strEq "FeatureCollection" then
      let geometries :=
        (value.getArr "features").filterMap fun feature =>
          let geom := feature.get "geometry"
          if geom.truthy then some geom else none
      if geometries.isEmpty then .ok .null
      else .ok (mappingFn (unaryUnion (geometries.map shapeFn)))
    else if value.isDict && value.hasKey "type" && value.hasKey "coordinates" then
      .ok value
    else .error "Unsupported geometry payload"

/-- The geometry handling of `service_cli.validate_payload` (lines 79-81):
`geometry_obj = None`, overwritten by `normalize_geometry_obj` only when the
payload carries a non-`None` geometry. -/
def validate_geometry (shapeFn : JValue → Geometry) (mappingFn : Geometry → JValue)
    (payload_geometry : JValue) : Except String JValue :=
  match payload_geometry with
  | .null => .ok .null
  | v => normalize_geometry_obj shapeFn mappingFn v

/-- One row of the buildings GeoDataFrame: copied properties (with the
injected `height_m`) plus the parsed geometry. -/
structure Building where
  properties : List (String × JValue)
  geometry : Geometry

/-- Python `props.setdefault(key, v)`: insert only when the key is absent. -/
def setdefaultJ (props : List (String × JValue)) (key : String) (v : JValue) :
    List (String × JValue) :=
  if (List.lookup key props).isSome then props else props ++ [(key, v)]

/-- Model of `feature.get("properties") or {}`: the fields when the value is a dict,
`{}` when it is missing or falsy.  (A truthy non-dict would raise in Python;
no claim reaches that corner.) -/
def propsOf (feature : JValue) : List (String × JValue) :=
  match feature.get "properties" with
  | .obj fields => fields
  | _ => []

/-- Model of `engine_core.features_to_gdf`: skip features with falsy geometry, parse
the geometry (external `shape`), copy the properties and inject `height_m`
via `setdefault` with the resolved height. -/
def features_to_gdf (shapeFn : JValue → Geometry) (features : List JValue) :
    List Building :=
  features.filterMap fun feature =>
    let geom := feature.get "geometry"
    if geom.truthy then
      let props := propsOf feature
      some ⟨setdefaultJ props "height_m" (.num (extract_height props)), shapeFn geom⟩
    else none

/-- Model of `engine_core.filter_buildings`: pass-through for `None`, empty frame for
an empty filter geometry, otherwise keep rows whose geometry intersects the
filter (boundary touching counts). -/
def filter_buildings (shapeFn : JValue → Geometry) (buildings : List Building)
    (geometry : JValue) : List Building :=
  match geometry with
  | .null => buildings
  | g =>
    let geom := shapeFn g
    if geom.isEmptyG then []
    else buildings.filter fun b => b.geometry.intersectsG geom

/-- Model of `engine_core.AnalysisInput` (the fields `run_analysis` reads;
`geometry = null` models `geometry=None`). -/
structure AnalysisInput where
  bbox : Bounds
  timestamp : String
  backend_url : String
  timezone : String
  max_features : ℤ
  geometry : JValue

/-- Return value of `run_analysis`: the buildings frame and the shadow frame
produced by the external generator. -/
structure RunResult where
  buildings : List Building
  shadows : List Geometry

/-- Model of `engine_core.run_analysis` after the upstream fetch: `raw` is the payload
`fetch_buildings` returned; `genShadows` is the external shadow generator
(`generate_shadows`: buildings, timestamp, timezone to a shadow frame).  The
`RuntimeError` raised for an empty building set is the `Except.error` case. -/
def run_analysis (shapeFn : JValue → Geometry)
    (genShadows : List Building → String → String → List Geometry)
    (raw : JValue) (params : AnalysisInput) : Except String RunResult :=
  let buildings_gdf := features_to_gdf shapeFn (raw.getArr "features")
  let buildings_gdf :=
    if params.geometry.truthy then filter_buildings shapeFn buildings_gdf params.geometry
    else buildings_gdf
  if buildings_gdf.isEmpty then
    .error "No building features returned for the specified bounds/geometry"
  else
    .ok ⟨buildings_gdf, genShadows buildings_gdf params.timestamp params.timezone⟩

/-- Model of `metrics` block of the assembled response. -/
structure MetricsBlock where
  sampleCount : ℕ
  avgShadowPercent : ℚ
  avgSunlightHours : ℚ
  engineLatencyMs : ℚ
  engineVersion : String
  shadowAreaSqm : ℚ
  bboxAreaSqm : ℚ
  coverageSource : String

/-- Model of `data` block of the assembled response (shadow and building layers are
kept as the frames they serialize). -/
structure DataBlock where
  shadows : List Geometry
  sunlight : List PointFeature
  heatmap : List PointFeature
  buildings : List Building

/-- Model of `metadata` block of the assembled response. -/
structure MetadataBlock where
  timezone : String
  backendUrl : String
  maxFeatures : ℤ

/-- The assembled analysis response. -/
structure Response where
  requestId : String
  data : DataBlock
  metrics : MetricsBlock
  metadata : MetadataBlock

/-- Response assembly of `service_cli.main` (lines 186-216) after
`run_analysis` succeeded: coverage stats, grid samples with the sample-derived
`avgShadowPercent` overwritten by the area-derived figure, heatmap, metrics
and metadata.  `requestId` (a fresh uuid), the engine version and the
profiling latency are environment inputs. -/
def main_response (proj : Proj) (requestId engineVersion : String)
    (engineLatencyMs : ℚ) (params : AnalysisInput)
    (shadows_gdf : List Geometry) (buildings_gdf : List Building)
    (grid : ℤ) : Response :=
  let coverage_stats := calculate_shadow_coverage proj params.bbox shadows_gdf
  let samples := analyse_samples shadows_gdf params.bbox grid
  let samples_metrics :=
    { samples.metrics with avgShadowPercent := coverage_stats.coverage_percent }
  { requestId := requestId
    data :=
      { shadows := shadows_gdf
        sunlight := samples.features
        heatmap := make_heatmap samples.features
        buildings := buildings_gdf }
    metrics :=
      { sampleCount := samples_metrics.sampleCount
        avgShadowPercent := coverage_stats.coverage_percent
        avgSunlightHours := samples_metrics.avgSunlightHours
        engineLatencyMs := engineLatencyMs
        engineVersion := engineVersion
        shadowAreaSqm := coverage_stats.shadow_area_sqm
        bboxAreaSqm := coverage_stats.bbox_area_sqm
        coverageSource := "area" }
    metadata :=
      { timezone := params.timezone
        backendUrl := params.backend_url
        maxFeatures := params.max_features } }

/-- Response assembly of `engine_server._run_single` (lines 91-120): same
pipeline as the CLI with `engineLatencyMs` fixed to 0. -/
def run_single_response (proj : Proj) (requestId engineVersion : String)
    (params : AnalysisInput) (shadows_gdf : List Geometry)
    (buildings_gdf : List Building) (grid : ℤ) : Response :=
  let coverage_stats := calculate_shadow_coverage proj params.bbox shadows_gdf
  let samples := analyse_samples shadows_gdf params.bbox grid
  let samples_metrics :=
    { samples.metrics with avgShadowPercent := coverage_stats.coverage_percent }
  { requestId := requestId
    data :=
      { shadows := shadows_gdf
        sunlight := samples.features
        heatmap := make_heatmap samples.features
        buildings := buildings_gdf }
    metrics :=
      { sampleCount := samples_metrics.sampleCount
        avgShadowPercent := coverage_stats.coverage_percent
        avgSunlightHours := samples_metrics.avgSunlightHours
        engineLatencyMs := 0
        engineVersion := engineVersion
        shadowAreaSqm := coverage_stats.shadow_area_sqm
        bboxAreaSqm := coverage_stats.bbox_area_sqm
        coverageSource := "area" }
    metadata :=
      { timezone := params.timezone
        backendUrl := params.backend_url
        maxFeatures := params.max_features } }


/-! ## Helper lemmas -/

/-- The union-of-rectangles area is non-negative. -/
theorem gArea_nonneg (g : Geometry) : 0 ≤ g.gArea := by
  unfold Geometry.gArea
  apply List.sum_nonneg
  intro x hx
  simp only [List.mem_map] at hx
  obtain ⟨a, -, rfl⟩ := hx
  apply List.sum_nonneg
  intro y hy
  simp only [List.mem_map] at hy
  obtain ⟨b, -, rfl⟩ := hy
  split
  · exact mul_nonneg (le_max_left 0 _) (le_max_left 0 _)
  · exact le_refl 0

/-- An empty geometry strictly contains no point. -/
theorem containsPt_of_isEmptyG (g : Geometry) (p : ℚ × ℚ)
    (h : g.isEmptyG = true) : g.containsPt p = false := by
  unfold Geometry.isEmptyG at h
  unfold Geometry.containsPt
  rw [List.any_eq_false]
  intro r hr
  have hre := (List.all_eq_true.mp h) r hr
  unfold Rect.isEmptyR at hre
  simp only [Bool.or_eq_true, decide_eq_true_eq] at hre
  simp only [Bool.and_eq_true, decide_eq_true_eq]
  rintro ⟨⟨⟨h1, h2⟩, h3⟩, h4⟩
  rcases hre with h5 | h5
  · linarith
  · linarith

/-- Classification helper: `pointInShadow` agrees with strict containment in
the union of the shadow layer (an empty frame and an empty union both classify sunlit). -/
theorem pointInShadow_eq_containsPt (gdf : List Geometry) (p : ℚ × ℚ) :
    pointInShadow gdf p = (unaryUnion gdf).containsPt p := by
  unfold pointInShadow
  by_cases h : gdf.isEmpty = true
  · rw [if_pos h]
    rw [List.isEmpty_iff] at h
    subst h
    rfl
  · rw [if_neg h]
    by_cases h2 : (unaryUnion gdf).isEmptyG = true
    · simp only [h2, if_pos]
      exact (containsPt_of_isEmptyG _ p h2).symm
    · simp only [h2, if_neg, Bool.false_eq_true, not_false_iff]

/-- A left fold that appends one transformed element per step is a map. -/
theorem foldl_append_singleton {α β : Type} (f : α → β) (l : List α)
    (init : List β) :
    l.foldl (fun acc x => acc ++ [f x]) init = init ++ l.map f := by
  induction l generalizing init with
  | nil => simp
  | cons x xs ih => simp [ih]

/-! ## Claim theorems -/

/-- C3: `extract_height` tries `height, HEIGHT, height_mean, levels` in that
fixed order; the first key whose value is present and parseable as a number
wins; a `levels` hit is scaled by 3.5; unparseable or missing values are
skipped; with no hit the result is 12.0.  Concretely:
`{height: "15"} = 15`, `{HEIGHT: 20} = 20`, `{levels: 4} = 14`, `{} = 12`,
and `{height: "abc"}` falls through to the next candidate or the default. -/
theorem extract_height_fixed_priority :
    (∀ props : List (String × JValue),
      extract_height props =
        match tryHeightKey props "height" with
        | some h => h
        | none =>
          match tryHeightKey props "HEIGHT" with
          | some h => h
          | none =>
            match tryHeightKey props "height_mean" with
            | some h => h
            | none =>
              match tryHeightKey props "levels" with
              | some h => h * 3.5
              | none => 12) ∧
    extract_height [("height", .str "15")] = 15 ∧
    extract_height [("HEIGHT", .num 20)] = 20 ∧
    extract_height [("levels", .num 4)] = 14 ∧
    extract_height [] = 12 ∧
    extract_height [("height", .str "abc"), ("levels", .num 2)] = 7 ∧
    extract_height [("height", .str "abc")] = 12 := by
  refine ⟨?_, ?_, ?_, ?_, ?_, ?_, ?_⟩
  · intro props
    simp only [extract_height, extractHeightGo]
    cases tryHeightKey props "height" <;>
      cases tryHeightKey props "HEIGHT" <;>
        cases tryHeightKey props "height_mean" <;>
          cases tryHeightKey props "levels" <;>
            simp +decide
  · simp +decide [extract_height, extractHeightGo, tryHeightKey, pyFloat,
      pyFloatOfString, parseMantissa, parseExponent, spanDigits, digitVal,
      digitsToNat, List.lookup]
  · simp +decide [extract_height, extractHeightGo, tryHeightKey, pyFloat, List.lookup]
  · simp +decide [extract_height, extractHeightGo, tryHeightKey, pyFloat, List.lookup]
    norm_num
  · simp +decide [extract_height, extractHeightGo, tryHeightKey, List.lookup]
  · simp +decide [extract_height, extractHeightGo, tryHeightKey, pyFloat,
      pyFloatOfString, parseMantissa, parseExponent, spanDigits, digitVal,
      digitsToNat, List.lookup]
    norm_num
  · simp +decide [extract_height, extractHeightGo, tryHeightKey, pyFloat,
      pyFloatOfString, parseMantissa, parseExponent, spanDigits, digitVal,
      digitsToNat, List.lookup]

/-- C7: `make_heatmap` is a pure, order-preserving 1:1 mapping: it maps each
input feature to a feature with the same geometry and a properties map
holding only `intensity`, equal to that feature's `hoursOfSun` (0 when
missing); the output has exactly as many features as the input. -/
theorem make_heatmap_pure_pointwise :
    ∀ features : List PointFeature,
      make_heatmap features =
        features.map (fun feature =>
          ⟨feature.geometry,
           [("intensity", (List.lookup "hoursOfSun" feature.properties).getD 0)]⟩) ∧
      (make_heatmap features).length = features.length := by
  intro features
  have h := foldl_append_singleton
    (fun feature : PointFeature =>
      (⟨feature.geometry,
        [("intensity", (List.lookup "hoursOfSun" feature.properties).getD 0)]⟩ :
        PointFeature))
    features []
  refine ⟨?_, ?_⟩
  · exact h.trans (by simp)
  · rw [make_heatmap, h]
    simp

/-- C6: in both assembled responses (CLI `main` and server `_run_single`)
the reported `avgShadowPercent` equals the area-derived `coverage_percent`
of `calculate_shadow_coverage` (the grid-sample-derived percentage is
overwritten), and `coverageSource` is the literal `"area"`. -/
theorem response_metrics_area_derived :
    ∀ (proj : Proj) (rid ver : String) (lat : ℚ) (params : AnalysisInput)
      (shadows_gdf : List Geometry) (buildings_gdf : List Building) (grid : ℤ),
      (main_response proj rid ver lat params shadows_gdf buildings_gdf grid).metrics.avgShadowPercent
          = (calculate_shadow_coverage proj params.bbox shadows_gdf).coverage_percent ∧
      (main_response proj rid ver lat params shadows_gdf buildings_gdf grid).metrics.coverageSource
          = "area" ∧
      (run_single_response proj rid ver params shadows_gdf buildings_gdf grid).metrics.avgShadowPercent
          = (calculate_shadow_coverage proj params.bbox shadows_gdf).coverage_percent ∧
      (run_single_response proj rid ver params shadows_gdf buildings_gdf grid).metrics.coverageSource
          = "area" := by
  intros
  exact ⟨rfl, rfl, rfl, rfl⟩

/-- Helper: a degenerate bbox (equal east/west or equal north/south) has a
zero projected area under any vertex transform, because the box collapses to
a segment whose corners share an axis coordinate. -/
theorem bboxArea_degenerate (proj : Proj) (bounds : Bounds)
    (h : bounds.east = bounds.west ∨ bounds.north = bounds.south) :
    bboxArea proj bounds = 0 := by
  rcases h with h | h <;>
    simp [bboxArea, bboxGeom, shapelyBox, Proj.geom, Proj.rect, Geometry.gArea,
      h, lt_self_iff_false, sortQ, dedupAdj, consecPairs]

/-- C1 counterexample: for the strictly inverted bbox
`{west: 1, south: 0, east: 0, north: 1}` (so `east <= west`) and an empty
shadow layer, `calculate_shadow_coverage` reports `bbox_area_sqm = 1`, not
the zero the claim asserts: shapely's `box` spans the two corners regardless
of their order, so the inverted bbox still has positive unsigned area. -/
theorem coverage_inverted_bbox_counterexample :
    Bounds.east ⟨1, 0, 0, 1⟩ ≤ Bounds.west ⟨1, 0, 0, 1⟩ ∧
    (calculate_shadow_coverage idProj ⟨1, 0, 0, 1⟩ []).bbox_area_sqm = 1 := by
  constructor
  · norm_num
  · norm_num +decide [calculate_shadow_coverage, bboxArea, bboxGeom, shapelyBox,
      idProj, Proj.geom, Proj.rect, Geometry.gArea, sortQ, insertSorted, dedupAdj,
      consecPairs, cellCovered]

/-- C1 (amended): for a bbox with `east <= west` or `north <= south`, the
grid sampler reports empty/zero without error (`sample_points` returns `[]`
and `analyse_samples` reports `sampleCount = 0` with all aggregate metrics
0.0); `calculate_shadow_coverage` also runs without error, and it returns
`{bbox_area_sqm = 0, shadow_area_sqm = 0, coverage_percent = 0}` exactly when
the bbox is degenerate (`east = west` or `north = south`) — for a strictly
inverted bbox the box polygon has positive unsigned area instead. -/
theorem degenerate_bbox_sampler_empty_coverage :
    ∀ (proj : Proj) (bounds : Bounds) (shadows gdf : List Geometry) (grid : ℤ),
      (bounds.east ≤ bounds.west ∨ bounds.north ≤ bounds.south) →
      sample_points bounds grid = [] ∧
      analyse_samples gdf bounds grid = ⟨[], ⟨0, 0, 0⟩⟩ ∧
      ((bounds.east = bounds.west ∨ bounds.north = bounds.south) →
        calculate_shadow_coverage proj bounds shadows = ⟨0, 0, 0⟩) := by
  intro proj bounds shadows gdf grid h
  have hsp : sample_points bounds grid = [] := by
    unfold sample_points
    rw [if_pos]
    rcases h with h | h
    · exact Or.inl (by linarith)
    · exact Or.inr (by linarith)
  refine ⟨hsp, ?_, ?_⟩
  · unfold analyse_samples
    rw [hsp]
    rfl
  · intro h2
    have hb : bboxArea proj bounds = 0 := bboxArea_degenerate proj bounds h2
    simp only [calculate_shadow_coverage, hb]
    norm_num

/-- C1 witness: the amended statement at the degenerate bbox
`{west: 0, south: 0, east: 0, north: 1}` with empty layers and grid 6. -/
theorem degenerate_bbox_sampler_empty_coverage_witness :
    sample_points ⟨0, 0, 0, 1⟩ 6 = [] ∧
    analyse_samples [] ⟨0, 0, 0, 1⟩ 6 = ⟨[], ⟨0, 0, 0⟩⟩ ∧
    calculate_shadow_coverage idProj ⟨0, 0, 0, 1⟩ [] = ⟨0, 0, 0⟩ := by
  have h := degenerate_bbox_sampler_empty_coverage idProj ⟨0, 0, 0, 1⟩ [] [] 6
    (Or.inl (by norm_num))
  exact ⟨h.1, h.2.1, h.2.2 (Or.inl rfl)⟩

/-- C2: `calculate_shadow_coverage` never divides by zero — division is only
reached with a strictly positive bbox area; a non-positive bbox area or empty
shadow frame returns `{bbox_area, 0, 0}`; an empty union or empty clipped
intersection returns shadow area 0 and coverage 0; otherwise the coverage is
`(shadow_area / bbox_area) * 100` clamped into `[0, 100]`; and in every case
all three returned fields are non-negative (with coverage at most 100). -/
theorem coverage_never_divides_by_zero :
    ∀ (proj : Proj) (bounds : Bounds) (shadows : List Geometry),
      (0 ≤ (calculate_shadow_coverage proj bounds shadows).bbox_area_sqm ∧
       0 ≤ (calculate_shadow_coverage proj bounds shadows).shadow_area_sqm ∧
       0 ≤ (calculate_shadow_coverage proj bounds shadows).coverage_percent ∧
       (calculate_shadow_coverage proj bounds shadows).coverage_percent ≤ 100) ∧
      (bboxArea proj bounds ≤ 0 ∨ shadows = [] →
        calculate_shadow_coverage proj bounds shadows =
          ⟨max (bboxArea proj bounds) 0, 0, 0⟩) ∧
      ((unaryUnion shadows).isEmptyG = true ∨
          ((unaryUnion shadows).clipTo (bboxGeom bounds)).isEmptyG = true →
        (calculate_shadow_coverage proj bounds shadows).shadow_area_sqm = 0 ∧
        (calculate_shadow_coverage proj bounds shadows).coverage_percent = 0) ∧
      (0 < bboxArea proj bounds → shadows ≠ [] →
       (unaryUnion shadows).isEmptyG = false →
       ((unaryUnion shadows).clipTo (bboxGeom bounds)).isEmptyG = false →
        calculate_shadow_coverage proj bounds shadows =
          ⟨bboxArea proj bounds,
           Geometry.gArea (proj.geom ((unaryUnion shadows).clipTo (bboxGeom bounds))),
           max 0 (min 100
             (Geometry.gArea (proj.geom ((unaryUnion shadows).clipTo (bboxGeom bounds)))
               / bboxArea proj bounds * 100))⟩) := by
  intro proj bounds shadows
  by_cases h1 : bboxArea proj bounds ≤ 0 ∨ shadows.isEmpty = true
  · have hr : calculate_shadow_coverage proj bounds shadows =
        ⟨max (bboxArea proj bounds) 0, 0, 0⟩ := by
      simp only [calculate_shadow_coverage]
      rw [if_pos h1]
    refine ⟨?_, fun _ => hr, ?_, ?_⟩
    · rw [hr]
      exact ⟨le_max_right _ 0, le_refl 0, le_refl 0, by norm_num⟩
    · intro _
      rw [hr]
      exact ⟨rfl, rfl⟩
    · intro hA hne _ _
      rcases h1 with h1 | h1
      · exact absurd h1 (not_le.mpr hA)
      · exact absurd (List.isEmpty_iff.mp h1) hne
  · have h1' := h1
    rw [not_or, not_le] at h1'
    obtain ⟨hA, hne⟩ := h1'
    have hneq : shadows ≠ [] := fun hc => by
      rw [hc] at hne
      exact hne rfl
    by_cases h2 : (unaryUnion shadows).isEmptyG = true
    · have hr : calculate_shadow_coverage proj bounds shadows =
          ⟨bboxArea proj bounds, 0, 0⟩ := by
        simp only [calculate_shadow_coverage]
        rw [if_neg h1, if_pos h2]
      refine ⟨?_, ?_, ?_, ?_⟩
      · rw [hr]
        exact ⟨le_of_lt hA, le_refl 0, le_refl 0, by norm_num⟩
      · intro hc
        rcases hc with hc | hc
        · exact absurd hc (not_le.mpr hA)
        · exact absurd hc hneq
      · intro _
        rw [hr]
        exact ⟨rfl, rfl⟩
      · intro _ _ hu _
        rw [h2] at hu
        exact absurd hu (by simp)
    · by_cases h3 : ((unaryUnion shadows).clipTo (bboxGeom bounds)).isEmptyG = true
      · have hr : calculate_shadow_coverage proj bounds shadows =
            ⟨bboxArea proj bounds, 0, 0⟩ := by
          simp only [calculate_shadow_coverage]
          rw [if_neg h1, if_neg h2, if_pos h3]
        refine ⟨?_, ?_, ?_, ?_⟩
        · rw [hr]
          exact ⟨le_of_lt hA, le_refl 0, le_refl 0, by norm_num⟩
        · intro hc
          rcases hc with hc | hc
          · exact absurd hc (not_le.mpr hA)
          · exact absurd hc hneq
        · intro _
          rw [hr]
          exact ⟨rfl, rfl⟩
        · intro _ _ _ hc
          rw [h3] at hc
          exact absurd hc (by simp)
      · have hr : calculate_shadow_coverage proj bounds shadows =
            ⟨bboxArea proj bounds,
             Geometry.gArea (proj.geom ((unaryUnion shadows).clipTo (bboxGeom bounds))),
             max 0 (min 100
               (Geometry.gArea (proj.geom ((unaryUnion shadows).clipTo (bboxGeom bounds)))
                 / bboxArea proj bounds * 100))⟩ := by
          simp only [calculate_shadow_coverage]
          rw [if_neg h1, if_neg h2, if_neg h3, if_neg (ne_of_gt hA)]
        refine ⟨?_, ?_, ?_, fun _ _ _ _ => hr⟩
        · rw [hr]
          refine ⟨le_of_lt hA, gArea_nonneg _, le_max_left 0 _, ?_⟩
          exact max_le (by norm_num) (min_le_left 100 _)
        · intro hc
          rcases hc with hc | hc
          · exact absurd hc (not_le.mpr hA)
          · exact absurd hc hneq
        · intro hc
          rcases hc with hc | hc
          · rw [hc] at h2
            exact absurd rfl h2
          · rw [hc] at h3
            exact absurd rfl h3

/-- C2 witness: bbox `{west: 0, south: 0, east: 2, north: 1}` with one shadow
rectangle covering the western half, through the identity transform: areas 2
and 1, coverage 50 (the clamped ratio). -/
theorem coverage_never_divides_by_zero_witness :
    calculate_shadow_coverage idProj ⟨0, 0, 2, 1⟩ [[⟨0, 0, 1, 1⟩]] = ⟨2, 1, 50⟩ := by
  have h := (coverage_never_divides_by_zero idProj ⟨0, 0, 2, 1⟩ [[⟨0, 0, 1, 1⟩]]).2.2.2
    (by norm_num +decide [bboxArea, bboxGeom, shapelyBox, idProj, Proj.geom,
      Proj.rect, Geometry.gArea, sortQ, insertSorted, dedupAdj, consecPairs,
      cellCovered])
    (by simp)
    (by norm_num +decide [Geometry.isEmptyG, unaryUnion, Rect.isEmptyR])
    (by norm_num +decide [Geometry.isEmptyG, unaryUnion, Geometry.clipTo,
      Rect.inter, Rect.isEmptyR, bboxGeom, shapelyBox])
  rw [h]
  norm_num +decide [bboxArea, bboxGeom, shapelyBox, idProj, Proj.geom, Proj.rect,
    Geometry.gArea, sortQ, insertSorted, dedupAdj, consecPairs, cellCovered,
    unaryUnion, Geometry.clipTo, Rect.inter]

/-- Helper: length of a flatMap whose pieces all have length `n`. -/
theorem length_flatMap_const {α β : Type} (l : List α) (g : α → List β) (n : ℕ)
    (h : ∀ a ∈ l, (g a).length = n) : (l.flatMap g).length = l.length * n := by
  induction l with
  | nil => simp
  | cons x xs ih =>
    simp only [List.flatMap_cons, List.length_append, List.length_cons]
    rw [h x (by simp), ih (fun a ha => h a (by simp [ha]))]
    ring

/-- C4: `sample_points` clamps the grid size into `[3, 25]` (inputs 1, 2, 3,
25, 100 included), and for a bbox with positive spans it places exactly `N²`
points (`N` the clamped value) at `west + i·(east-west)/(N+1)`,
`south + j·(north-south)/(N+1)` with `i, j ∈ [1, N]` — all strictly inside
the bbox, never on its edges or corners — and `analyse_samples` reports
`sampleCount = N²`. -/
theorem sample_points_clamped_interior_grid :
    ∀ (grid : ℤ) (bounds : Bounds) (gdf : List Geometry),
      (3 ≤ max 3 (min grid 25) ∧ max 3 (min grid 25) ≤ 25) ∧
      (max 3 (min (1 : ℤ) 25) = 3 ∧ max 3 (min (2 : ℤ) 25) = 3 ∧
       max 3 (min (3 : ℤ) 25) = 3 ∧ max 3 (min (25 : ℤ) 25) = 25 ∧
       max 3 (min (100 : ℤ) 25) = 25) ∧
      (bounds.west < bounds.east → bounds.south < bounds.north →
        (sample_points bounds grid).length = (max 3 (min grid 25)).toNat ^ 2 ∧
        (analyse_samples gdf bounds grid).metrics.sampleCount
            = (max 3 (min grid 25)).toNat ^ 2 ∧
        (∀ p ∈ sample_points bounds grid,
          ∃ i j : ℕ,
            1 ≤ i ∧ i ≤ (max 3 (min grid 25)).toNat ∧
            1 ≤ j ∧ j ≤ (max 3 (min grid 25)).toNat ∧
            p.1 = bounds.west +
              (i : ℚ) * ((bounds.east - bounds.west) / ((max 3 (min grid 25) : ℤ) + 1 : ℚ)) ∧
            p.2 = bounds.south +
              (j : ℚ) * ((bounds.north - bounds.south) / ((max 3 (min grid 25) : ℤ) + 1 : ℚ)) ∧
            bounds.west < p.1 ∧ p.1 < bounds.east ∧
            bounds.south < p.2 ∧ p.2 < bounds.north)) := by
  intro grid bounds gdf
  have hN3 : (3 : ℤ) ≤ max 3 (min grid 25) := le_max_left _ _
  have hN25 : max 3 (min grid 25) ≤ 25 := max_le (by norm_num) (min_le_right _ _)
  refine ⟨⟨hN3, hN25⟩, by decide, ?_⟩
  intro hwe hsn
  have hlon : (0 : ℚ) < bounds.east - bounds.west := by linarith
  have hlat : (0 : ℚ) < bounds.north - bounds.south := by linarith
  have hNQ : (3 : ℚ) ≤ ((max 3 (min grid 25) : ℤ) : ℚ) := by exact_mod_cast hN3
  have hden : (0 : ℚ) < ((max 3 (min grid 25) : ℤ) : ℚ) + 1 := by linarith
  have heq : sample_points bounds grid =
      (List.range (max 3 (min grid 25)).toNat).flatMap fun (i : ℕ) =>
        (List.range (max 3 (min grid 25)).toNat).map fun (j : ℕ) =>
          (bounds.west +
             (bounds.east - bounds.west) / (((max 3 (min grid 25) : ℤ) : ℚ) + 1) * ((i : ℚ) + 1),
           bounds.south +
             (bounds.north - bounds.south) / (((max 3 (min grid 25) : ℤ) : ℚ) + 1) * ((j : ℚ) + 1)) := by
    simp only [sample_points]
    rw [if_neg]
    push_neg
    constructor <;> linarith
  have hlen : (sample_points bounds grid).length = (max 3 (min grid 25)).toNat ^ 2 := by
    rw [heq, length_flatMap_const _ _ (max 3 (min grid 25)).toNat
      (fun a _ => by simp)]
    simp [sq]
  have hne : (sample_points bounds grid).isEmpty = false := by
    rw [List.isEmpty_eq_false_iff_exists_mem]
    have hpos : 0 < (sample_points bounds grid).length := by
      rw [hlen]
      have : 0 < (max 3 (min grid 25)).toNat := by omega
      positivity
    exact List.exists_mem_of_length_pos hpos
  refine ⟨hlen, ?_, ?_⟩
  · simp only [analyse_samples, hne, Bool.false_eq_true, if_false]
    exact hlen
  · intro p hp
    rw [heq] at hp
    simp only [List.mem_flatMap, List.mem_map, List.mem_range] at hp
    obtain ⟨i, hi, j, hj, rfl⟩ := hp
    have hiZ : (i : ℤ) < max 3 (min grid 25) := by omega
    have hjZ : (j : ℤ) < max 3 (min grid 25) := by omega
    have hiQ : (i : ℚ) < ((max 3 (min grid 25) : ℤ) : ℚ) := by exact_mod_cast hiZ
    have hjQ : (j : ℚ) < ((max 3 (min grid 25) : ℤ) : ℚ) := by exact_mod_cast hjZ
    have hstepLon : (0 : ℚ) <
        (bounds.east - bounds.west) / (((max 3 (min grid 25) : ℤ) : ℚ) + 1) :=
      div_pos hlon hden
    have hstepLat : (0 : ℚ) <
        (bounds.north - bounds.south) / (((max 3 (min grid 25) : ℤ) : ℚ) + 1) :=
      div_pos hlat hden
    have hmulLon :
        (bounds.east - bounds.west) / (((max 3 (min grid 25) : ℤ) : ℚ) + 1) *
            (((max 3 (min grid 25) : ℤ) : ℚ) + 1) = bounds.east - bounds.west :=
      div_mul_cancel₀ _ (ne_of_gt hden)
    have hmulLat :
        (bounds.north - bounds.south) / (((max 3 (min grid 25) : ℤ) : ℚ) + 1) *
            (((max 3 (min grid 25) : ℤ) : ℚ) + 1) = bounds.north - bounds.south :=
      div_mul_cancel₀ _ (ne_of_gt hden)
    refine ⟨i + 1, j + 1, by omega, by omega, by omega, by omega, ?_, ?_, ?_, ?_, ?_, ?_⟩
    · push_cast
      ring
    · push_cast
      ring
    · have hc : (0 : ℚ) ≤ (i : ℚ) := Nat.cast_nonneg i
      have := mul_pos hstepLon (by linarith : (0 : ℚ) < (i : ℚ) + 1)
      simp only
      linarith
    · have h1 :
          (bounds.east - bounds.west) / (((max 3 (min grid 25) : ℤ) : ℚ) + 1) * ((i : ℚ) + 1) <
          (bounds.east - bounds.west) / (((max 3 (min grid 25) : ℤ) : ℚ) + 1) *
            (((max 3 (min grid 25) : ℤ) : ℚ) + 1) :=
        mul_lt_mul_of_pos_left (by linarith) hstepLon
      rw [hmulLon] at h1
      simp only
      linarith
    · have hc : (0 : ℚ) ≤ (j : ℚ) := Nat.cast_nonneg j
      have := mul_pos hstepLat (by linarith : (0 : ℚ) < (j : ℚ) + 1)
      simp only
      linarith
    · have h1 :
          (bounds.north - bounds.south) / (((max 3 (min grid 25) : ℤ) : ℚ) + 1) * ((j : ℚ) + 1) <
          (bounds.north - bounds.south) / (((max 3 (min grid 25) : ℤ) : ℚ) + 1) *
            (((max 3 (min grid 25) : ℤ) : ℚ) + 1) :=
        mul_lt_mul_of_pos_left (by linarith) hstepLat
      rw [hmulLat] at h1
      simp only
      linarith

/-- C4 witness: grid input 100 over the unit-positive bbox
`{west: 0, south: 0, east: 4, north: 4}` clamps to 25 and yields 625 samples. -/
theorem sample_points_clamped_interior_grid_witness :
    (sample_points ⟨0, 0, 4, 4⟩ 100).length = 625 ∧
    (analyse_samples [] ⟨0, 0, 4, 4⟩ 100).metrics.sampleCount = 625 := by
  have h := (sample_points_clamped_interior_grid 100 ⟨0, 0, 4, 4⟩ []).2.2
    (by norm_num) (by norm_num)
  refine ⟨?_, ?_⟩
  · rw [h.1]
    decide
  · rw [h.2.1]
    decide

/-- C5: each feature emitted by `analyse_samples` is classified shadowed
exactly when its point is (strictly, boundary-exclusively) contained in the
union of the shadow layer, computed once per call; a shadowed point carries
`hoursOfSun = 3.0` and `shadowPercent = 85.0`, a sunlit point `hoursOfSun =
10.0` and `shadowPercent = 5.0`, with `weight = clamp(hoursOfSun / 10.0, 0.1,
1.0)`; for an empty shadow frame every sample classifies sunlit. -/
theorem analyse_samples_classifies_by_union :
    ∀ (gdf : List Geometry) (bounds : Bounds) (grid : ℤ),
      (∀ f ∈ (analyse_samples gdf bounds grid).features,
        f = sampleFeature
              ((unaryUnion gdf).containsPt (f.geometry.lon, f.geometry.lat))
              (f.geometry.lon, f.geometry.lat)) ∧
      (∀ (b : Bool) (p : ℚ × ℚ),
        (sampleFeature b p).properties =
          [("hoursOfSun", if b then (3 : ℚ) else 10),
           ("shadowPercent", if b then (85 : ℚ) else 5),
           ("weight", max (1 / 10) (min ((if b then (3 : ℚ) else 10) / 10) 1))]) ∧
      (gdf = [] →
        ∀ f ∈ (analyse_samples gdf bounds grid).features,
          f.properties =
            [("hoursOfSun", 10), ("shadowPercent", 5), ("weight", 1)]) := by
  intro gdf bounds grid
  have main : ∀ f ∈ (analyse_samples gdf bounds grid).features,
      f = sampleFeature
            ((unaryUnion gdf).containsPt (f.geometry.lon, f.geometry.lat))
            (f.geometry.lon, f.geometry.lat) := by
    intro f hf
    unfold analyse_samples at hf
    by_cases hpe : (sample_points bounds grid).isEmpty = true
    · rw [if_pos hpe] at hf
      simp at hf
    · rw [if_neg hpe] at hf
      simp only [List.mem_map] at hf
      obtain ⟨⟨x, y⟩, hp, rfl⟩ := hf
      rw [pointInShadow_eq_containsPt]
      rfl
  refine ⟨main, ?_, ?_⟩
  · intro b p
    cases b <;> rfl
  · intro h f hf
    subst h
    have hfe := main f hf
    rw [hfe]
    norm_num [sampleFeature, unaryUnion, Geometry.containsPt]

/-- C5 witness: with an empty shadow frame over bbox
`{west: 0, south: 0, east: 4, north: 4}` at grid 3, the grid sample at
`(1, 1)` is emitted sunlit with `hoursOfSun = 10`, `shadowPercent = 5` and
`weight = 1`. -/
theorem analyse_samples_classifies_by_union_witness :
    (sampleFeature false (1, 1)).properties =
      [("hoursOfSun", 10), ("shadowPercent", 5), ("weight", 1)] := by
  apply (analyse_samples_classifies_by_union [] ⟨0, 0, 4, 4⟩ 3).2.2 rfl
  norm_num +decide [analyse_samples, sample_points, pointInShadow, unaryUnion,
    Geometry.containsPt, List.range_succ]
  refine ⟨0, by norm_num, 0, by norm_num, ?_⟩
  norm_num

/-- Helper: a successful string comparison pins down the JSON value. -/
theorem JValue.strEq_eq {v : JValue} {t : String} (h : v.strEq t = true) :
    v = .str t := by
  cases v with
  | str s =>
    simp only [JValue.strEq, beq_iff_eq] at h
    rw [h]
  | null => simp [JValue.strEq] at h
  | bool b => simp [JValue.strEq] at h
  | num q => simp [JValue.strEq] at h
  | arr items => simp [JValue.strEq] at h
  | obj fields => simp [JValue.strEq] at h

/-- Helper: the single-Feature branch of `normalize_geometry_obj`. -/
theorem normalize_feature_branch (shapeFn : JValue → Geometry)
    (mappingFn : Geometry → JValue) (value : JValue)
    (hd : value.isDict = true)
    (hf : (value.get "type").strEq "Feature" = true) :
    normalize_geometry_obj shapeFn mappingFn value = .ok (value.get "geometry") := by
  cases value with
  | obj fields => simp [normalize_geometry_obj, JValue.isDict, hf]
  | null => simp [JValue.isDict] at hd
  | bool b => simp [JValue.isDict] at hd
  | num q => simp [JValue.isDict] at hd
  | str s => simp [JValue.isDict] at hd
  | arr items => simp [JValue.isDict] at hd

/-- Helper: the FeatureCollection branch of `normalize_geometry_obj`. -/
theorem normalize_fc_branch (shapeFn : JValue → Geometry)
    (mappingFn : Geometry → JValue) (value : JValue)
    (hd : value.isDict = true)
    (hfc : (value.get "type").strEq "FeatureCollection" = true) :
    normalize_geometry_obj shapeFn mappingFn value =
      (if ((value.getArr "features").filterMap fun f =>
            if (f.get "geometry").truthy then some (f.get "geometry") else none).isEmpty
       then .ok .null
       else .ok (mappingFn (unaryUnion
          (((value.getArr "features").filterMap fun f =>
            if (f.get "geometry").truthy then some (f.get "geometry") else none).map
            shapeFn)))) := by
  have hne : (value.get "type").strEq "Feature" = false := by
    rw [JValue.strEq_eq hfc]
    rfl
  cases value with
  | obj fields => simp [normalize_geometry_obj, JValue.isDict, hfc, hne]
  | null => simp [JValue.isDict] at hd
  | bool b => simp [JValue.isDict] at hd
  | num q => simp [JValue.isDict] at hd
  | str s => simp [JValue.isDict] at hd
  | arr items => simp [JValue.isDict] at hd

/-- C8: `normalize_geometry_obj` returns `null` for `null`, the contained
geometry for a single Feature, the union of the member geometries for a
FeatureCollection (`null` when no member carries a geometry), the input
unchanged for a raw geometry object carrying both `type` and `coordinates`,
and fails with `ValueError("Unsupported geometry payload")` for every other
shape. -/
theorem normalize_geometry_cases :
    ∀ (shapeFn : JValue → Geometry) (mappingFn : Geometry → JValue)
      (value : JValue),
      (value = .null → normalize_geometry_obj shapeFn mappingFn value = .ok .null) ∧
      (value.isDict = true → (value.get "type").strEq "Feature" = true →
        normalize_geometry_obj shapeFn mappingFn value = .ok (value.get "geometry")) ∧
      (value.isDict = true → (value.get "type").strEq "FeatureCollection" = true →
        (((value.getArr "features").filterMap fun f =>
            if (f.get "geometry").truthy then some (f.get "geometry") else none) = [] →
          normalize_geometry_obj shapeFn mappingFn value = .ok .null) ∧
        (∀ (g : JValue) (gs : List JValue),
          ((value.getArr "features").filterMap fun f =>
            if (f.get "geometry").truthy then some (f.get "geometry") else none) = g :: gs →
          normalize_geometry_obj shapeFn mappingFn value =
            .ok (mappingFn (unaryUnion ((g :: gs).map shapeFn))))) ∧
      (value.isDict = true → (value.get "type").strEq "Feature" = false →
        (value.get "type").strEq "FeatureCollection" = false →
        value.hasKey "type" = true → value.hasKey "coordinates" = true →
        normalize_geometry_obj shapeFn mappingFn value = .ok value) ∧
      (value ≠ .null →
        (value.isDict && (value.get "type").strEq "Feature") = false →
        (value.isDict && (value.get "type").strEq "FeatureCollection") = false →
        (value.isDict && value.hasKey "type" && value.hasKey "coordinates") = false →
        normalize_geometry_obj shapeFn mappingFn value =
          .error "Unsupported geometry payload") := by
  intro shapeFn mappingFn value
  refine ⟨?_, ?_, ?_, ?_, ?_⟩
  · rintro rfl
    rfl
  · exact normalize_feature_branch shapeFn mappingFn value
  · intro hd hfc
    constructor
    · intro hemp
      rw [normalize_fc_branch shapeFn mappingFn value hd hfc, hemp]
      rfl
    · intro g gs hcons
      rw [normalize_fc_branch shapeFn mappingFn value hd hfc, hcons]
      rfl
  · intro hd hnf hnfc ht hc
    cases value with
    | obj fields => simp [normalize_geometry_obj, JValue.isDict, hnf, hnfc, ht, hc]
    | null => simp [JValue.isDict] at hd
    | bool b => simp [JValue.isDict] at hd
    | num q => simp [JValue.isDict] at hd
    | str s => simp [JValue.isDict] at hd
    | arr items => simp [JValue.isDict] at hd
  · intro hnn h1 h2 h3
    cases value with
    | null => exact absurd rfl hnn
    | obj fields => simp [normalize_geometry_obj, h1, h2, h3]
    | bool b => simp [normalize_geometry_obj, h1, h2, h3]
    | num q => simp [normalize_geometry_obj, h1, h2, h3]
    | str s => simp [normalize_geometry_obj, h1, h2, h3]
    | arr items => simp [normalize_geometry_obj, h1, h2, h3]

/-- C8 witness: a single Feature wrapping a point geometry normalizes to
that geometry; the external shapely conversions are instantiated trivially
(they are not consulted on this branch). -/
theorem normalize_geometry_cases_witness :
    normalize_geometry_obj (fun _ => ([] : Geometry)) (fun _ => JValue.null)
        (.obj [("type", .str "Feature"),
               ("geometry", .obj [("type", .str "Point"),
                                  ("coordinates", .arr [.num 0, .num 0])])]) =
      .ok (.obj [("type", .str "Point"), ("coordinates", .arr [.num 0, .num 0])]) := by
  exact (normalize_geometry_cases (fun _ => ([] : Geometry)) (fun _ => JValue.null)
    (.obj [("type", .str "Feature"),
           ("geometry", .obj [("type", .str "Point"),
                              ("coordinates", .arr [.num 0, .num 0])])])).2.1 rfl rfl

/-- C9: when the building set left after the optional geometry filter is
empty, `run_analysis` fails with the no-buildings `RuntimeError`, and the
result does not depend on the external shadow generator — the generator is
never invoked on this path, and the failure is terminal (no retry exists in
the pure request evaluation). -/
theorem run_analysis_empty_buildings_error :
    ∀ (shapeFn : JValue → Geometry)
      (gen gen' : List Building → String → String → List Geometry)
      (raw : JValue) (params : AnalysisInput),
      (if params.geometry.truthy then
        filter_buildings shapeFn (features_to_gdf shapeFn (raw.getArr "features"))
          params.geometry
       else features_to_gdf shapeFn (raw.getArr "features")) = [] →
      run_analysis shapeFn gen raw params =
        .error "No building features returned for the specified bounds/geometry" ∧
      run_analysis shapeFn gen raw params = run_analysis shapeFn gen' raw params := by
  intro shapeFn gen gen' raw params h
  have he : ∀ g : List Building → String → String → List Geometry,
      run_analysis shapeFn g raw params =
        .error "No building features returned for the specified bounds/geometry" := by
    intro g
    simp only [run_analysis, h]
    rfl
  exact ⟨he gen, (he gen).trans (he gen').symm⟩

/-- C9 witness: an upstream payload with an empty feature list and no filter
geometry makes `run_analysis` fail with the no-buildings error, for an
arbitrary (never invoked) shadow generator. -/
theorem run_analysis_empty_buildings_error_witness :
    run_analysis (fun _ => []) (fun _ _ _ => []) (.obj [("features", .arr [])])
        ⟨⟨0, 0, 1, 1⟩, "2025-01-01T03:00:00", "http://localhost:3500",
         "Asia/Hong_Kong", 8000, .null⟩ =
      .error "No building features returned for the specified bounds/geometry" := by
  exact (run_analysis_empty_buildings_error (fun _ => []) (fun _ _ _ => [])
    (fun _ _ _ => []) (.obj [("features", .arr [])])
    ⟨⟨0, 0, 1, 1⟩, "2025-01-01T03:00:00", "http://localhost:3500",
     "Asia/Hong_Kong", 8000, .null⟩ rfl).1

/-- C10 (implicit): a Feature whose `geometry` member is `null` or absent
normalizes to `null` (no filter) rather than failing; a FeatureCollection
none of whose members carries a truthy geometry also normalizes to `null`;
a request whose resolved geometry is `null` proceeds with no geometry
filter applied to the fetched buildings; and `validate_payload` leaves the
geometry `null` exactly when the payload carries none, delegating every
other value to `normalize_geometry_obj`. -/
theorem feature_null_geometry_means_no_filter :
    ∀ (shapeFn : JValue → Geometry) (mappingFn : Geometry → JValue),
      (∀ value : JValue, value.isDict = true →
        (value.get "type").strEq "Feature" = true →
        value.get "geometry" = .null →
        normalize_geometry_obj shapeFn mappingFn value = .ok .null) ∧
      (∀ value : JValue, value.isDict = true →
        (value.get "type").strEq "FeatureCollection" = true →
        (∀ f ∈ value.getArr "features", (f.get "geometry").truthy = false) →
        normalize_geometry_obj shapeFn mappingFn value = .ok .null) ∧
      (∀ (gen : List Building → String → String → List Geometry)
         (raw : JValue) (params : AnalysisInput),
        params.geometry = .null →
        run_analysis shapeFn gen raw params =
          (if (features_to_gdf shapeFn (raw.getArr "features")).isEmpty then
            .error "No building features returned for the specified bounds/geometry"
           else
            .ok ⟨features_to_gdf shapeFn (raw.getArr "features"),
                 gen (features_to_gdf shapeFn (raw.getArr "features"))
                   params.timestamp params.timezone⟩)) ∧
      (validate_geometry shapeFn mappingFn .null = .ok .null ∧
       ∀ v : JValue, v ≠ .null →
         validate_geometry shapeFn mappingFn v =
           normalize_geometry_obj shapeFn mappingFn v) := by
  intro shapeFn mappingFn
  refine ⟨?_, ?_, ?_, rfl, ?_⟩
  · intro value hd hf hg
    rw [normalize_feature_branch shapeFn mappingFn value hd hf, hg]
  · intro value hd hfc hall
    have hemp : ((value.getArr "features").filterMap fun f =>
        if (f.get "geometry").truthy then some (f.get "geometry") else none) = [] := by
      rw [List.filterMap_eq_nil_iff]
      intro f hf
      rw [if_neg]
      simp [hall f hf]
    rw [normalize_fc_branch shapeFn mappingFn value hd hfc, hemp]
    rfl
  · intro gen raw params hnull
    simp only [run_analysis, hnull, JValue.truthy, Bool.false_eq_true, if_false]
  · intro v hv
    cases v with
    | null => exact absurd rfl hv
    | bool b => rfl
    | num q => rfl
    | str s2 => rfl
    | arr items => rfl
    | obj fields => rfl

/-- C10 witness: a Feature with no `geometry` member normalizes to `null`. -/
theorem feature_null_geometry_means_no_filter_witness :
    normalize_geometry_obj (fun _ => ([] : Geometry)) (fun _ => JValue.null)
      (.obj [("type", .str "Feature")]) = .ok .null := by
  exact (feature_null_geometry_means_no_filter (fun _ => ([] : Geometry))
    (fun _ => JValue.null)).1 (.obj [("type", .str "Feature")]) rfl rfl rfl
